import Mathlib

/-!
Shallow embedding of the StreetGridOS edge-node firmware core
(src/firmware/src/node.rs and src/firmware/src/types.rs).

Rust enums become Lean inductives; the `EdgeNode` struct keeps the fields
the decision logic reads or writes (the HAL driver, the pin map and the
orchestrator client are environment: hardware pushes are modelled as the
list of `set_physical_relay` invocations an operation emits, and the power
sensor as an explicit `SensorOutcome` oracle fed to `check_voltage`).
`f32` quantities are modelled as rationals: every finite `f32` value is a
rational and the comparison against the exactly-representable 110.0
threshold is the exact numeric comparison.  Rust's derived `Ord` on
`Priority` compares discriminants, embodied here by `Priority.discr`.
-/

namespace StreetGrid

/-- NodeState from types.rs. -/
inductive NodeState
  | Normal
  | AlertSent
  | Islanded
  | BlackStart
  deriving DecidableEq

/-- MeshType from types.rs. -/
inductive MeshType
  | AdHoc
  | GovernmentSanctioned
  deriving DecidableEq

/-- RelayType from types.rs. -/
inductive RelayType
  | Source
  | Load
  | Grid
  deriving DecidableEq

/-- Priority from types.rs; Critical = 0 is the most protected tier. -/
inductive Priority
  | Critical
  | High
  | Medium
  | Low
  deriving DecidableEq

/-- The Rust discriminant; the derived `Ord` on `Priority` compares these. -/
def Priority.discr : Priority → Nat
  | Priority.Critical => 0
  | Priority.High => 1
  | Priority.Medium => 2
  | Priority.Low => 3

/-- Relay from types.rs. -/
structure Relay where
  id : String
  name : String
  relay_type : RelayType
  priority : Priority
  amperage : ℚ
  is_closed : Bool
  deriving DecidableEq

/-- One `set_physical_relay(relay_id, closed)` invocation. -/
abbrev Push := String × Bool

/-- shed_all_loads from node.rs: collect the ids of closed Load relays,
open every closed Load relay, then push each collected id to hardware. -/
def shed_all_loads (relays : List Relay) : List Relay × List Push :=
  let load_ids :=
    (relays.filter (fun r => decide (r.relay_type = RelayType.Load ∧ r.is_closed = true))).map
      (fun r => r.id)
  let relays' := relays.map (fun r =>
    if r.relay_type = RelayType.Load ∧ r.is_closed = true then
      { r with is_closed := false }
    else r)
  (relays', load_ids.map (fun i => (i, false)))

/-- disconnect_grid from node.rs: open every Grid relay (the hardware push
list is collected from all Grid relays, open or closed, as in the source). -/
def disconnect_grid (relays : List Relay) : List Relay × List Push :=
  let grid_relay_ids :=
    (relays.filter (fun r => decide (r.relay_type = RelayType.Grid))).map (fun r => r.id)
  let relays' := relays.map (fun r =>
    if r.relay_type = RelayType.Grid then { r with is_closed := false } else r)
  (relays', grid_relay_ids.map (fun i => (i, false)))

/-- shed_load from node.rs: Load relays with priority ≥ threshold (derived
`Ord`, i.e. discriminant comparison) that are closed get opened and pushed. -/
def shed_load (relays : List Relay) (priority_threshold : Priority) : List Relay × List Push :=
  let to_shed :=
    (relays.filter (fun r =>
      decide (r.relay_type = RelayType.Load ∧
        Priority.discr priority_threshold ≤ Priority.discr r.priority ∧
        r.is_closed = true))).map (fun r => r.id)
  let relays' := relays.map (fun r =>
    if r.relay_type = RelayType.Load ∧
        Priority.discr priority_threshold ≤ Priority.discr r.priority then
      (if r.is_closed = true then { r with is_closed := false } else r)
    else r)
  (relays', to_shed.map (fun i => (i, false)))

/-- activate_relays_by_priority from node.rs: close every open relay with
exactly the given priority and push each of them. -/
def activate_relays_by_priority (relays : List Relay) (priority : Priority) :
    List Relay × List Push :=
  let to_activate :=
    (relays.filter (fun r =>
      decide (r.priority = priority ∧ r.is_closed = false))).map (fun r => r.id)
  let relays' := relays.map (fun r =>
    if r.priority = priority ∧ r.is_closed = false then { r with is_closed := true } else r)
  (relays', to_activate.map (fun i => (i, true)))

/-- The fields of EdgeNode (node.rs) that the decision logic touches. -/
structure EdgeNode where
  id : String
  state : NodeState
  mesh_type : MeshType
  battery_soc : ℚ
  relays : List Relay
  voltage_ref : ℚ
  last_voltage : ℚ
  deriving DecidableEq

/-- UNDERVOLTAGE_THRESHOLD from node.rs (110.0 V). -/
def UNDERVOLTAGE_THRESHOLD : ℚ := 110

/-- enter_island_mode from node.rs: set state to Islanded, shed all loads,
then disconnect the grid only under AdHoc mesh. -/
def enter_island_mode (node : EdgeNode) : EdgeNode × List Push :=
  let node1 := { node with state := NodeState.Islanded }
  let s := shed_all_loads node1.relays
  match node1.mesh_type with
  | MeshType.AdHoc =>
      let d := disconnect_grid s.1
      ({ node1 with relays := d.1 }, s.2 ++ d.2)
  | MeshType.GovernmentSanctioned =>
      ({ node1 with relays := s.1 }, s.2)

/-- enter_blackstart_mode from node.rs: set state to BlackStart, mutate no
relay and push nothing. -/
def enter_blackstart_mode (node : EdgeNode) : EdgeNode × List Push :=
  ({ node with state := NodeState.BlackStart }, [])

/-- Outcome of the optional power sensor's read_watts call in check_voltage:
no sensor attached, a successful reading, or a read error. -/
inductive SensorOutcome
  | noSensor
  | ok (watts : ℚ)
  | err
  deriving DecidableEq

/-- check_voltage from node.rs.  In every sensor-outcome branch the value
bound to `voltage` is the configured voltage_ref (an Ok reading is only
logged); the result's Bool records whether send_voltage_alert was invoked. -/
def check_voltage (node : EdgeNode) (o : SensorOutcome) : EdgeNode × Bool :=
  let voltage := match o with
    | SensorOutcome.noSensor => node.voltage_ref
    | SensorOutcome.ok _ => node.voltage_ref
    | SensorOutcome.err => node.voltage_ref
  let node1 := { node with last_voltage := voltage }
  if voltage < UNDERVOLTAGE_THRESHOLD then
    match node1.state with
    | NodeState.Normal => ({ node1 with state := NodeState.AlertSent }, true)
    | NodeState.AlertSent => (node1, false)
    | NodeState.Islanded => (node1, false)
    | NodeState.BlackStart => (node1, false)
  else (node1, false)

/-- LoadShed command payload (proto message used in node.rs). -/
structure LoadShed where
  target_node_id : String
  shed_load : Bool
  deriving DecidableEq

/-- EnterIsland command payload. -/
structure EnterIsland where
  target_node_id : String
  deriving DecidableEq

/-- EnterBlackStart command payload. -/
structure EnterBlackStart where
  target_node_id : String
  deriving DecidableEq

/-- ActivateRelayByIndex command payload; relay_index is the wire integer
(cast with `as usize` in node.rs), modelled as a natural number. -/
structure ActivateRelayByIndex where
  target_node_id : String
  relay_index : Nat
  deriving DecidableEq

/-- ActivateRelayByPriority command payload; priority is the raw wire code. -/
structure ActivateRelayByPriority where
  target_node_id : String
  priority : Int
  deriving DecidableEq

/-- IncomingCommand from comms.rs. -/
inductive IncomingCommand
  | LoadShed (c : LoadShed)
  | EnterIsland (c : EnterIsland)
  | EnterBlackStart (c : EnterBlackStart)
  | ActivateRelayByIndex (c : ActivateRelayByIndex)
  | ActivateRelayByPriority (c : ActivateRelayByPriority)
  deriving DecidableEq

/-- The target_node_id carried by a command. -/
def IncomingCommand.target : IncomingCommand → String
  | IncomingCommand.LoadShed c => c.target_node_id
  | IncomingCommand.EnterIsland c => c.target_node_id
  | IncomingCommand.EnterBlackStart c => c.target_node_id
  | IncomingCommand.ActivateRelayByIndex c => c.target_node_id
  | IncomingCommand.ActivateRelayByPriority c => c.target_node_id

/-- handle_load_shed_command from node.rs: targeted shed=true runs
shed_load(Medium); shed=false is logged and ignored. -/
def handle_load_shed_command (node : EdgeNode) (cmd : LoadShed) : EdgeNode × List Push :=
  if cmd.target_node_id = node.id then
    if cmd.shed_load = true then
      let s := shed_load node.relays Priority.Medium
      ({ node with relays := s.1 }, s.2)
    else (node, [])
  else (node, [])

/-- handle_enter_island_command from node.rs. -/
def handle_enter_island_command (node : EdgeNode) (cmd : EnterIsland) : EdgeNode × List Push :=
  if cmd.target_node_id = node.id then enter_island_mode node else (node, [])

/-- handle_enter_blackstart_command from node.rs. -/
def handle_enter_blackstart_command (node : EdgeNode) (cmd : EnterBlackStart) :
    EdgeNode × List Push :=
  if cmd.target_node_id = node.id then enter_blackstart_mode node else (node, [])

/-- handle_activate_relay_by_index from node.rs.  In range, the relay at
that position is closed and pushed.  Out of range, the source formats a
warning containing `self.relays.len() - 1`: with an empty relay list this
usize subtraction overflows, a panic under Rust overflow checks, modelled
here as `none`; with a nonempty list the warning is benign and nothing
changes. -/
def handle_activate_relay_by_index (node : EdgeNode) (cmd : ActivateRelayByIndex) :
    Option (EdgeNode × List Push) :=
  if cmd.target_node_id = node.id then
    if h : cmd.relay_index < node.relays.length then
      let relay := node.relays.get ⟨cmd.relay_index, h⟩
      some ({ node with
                relays := node.relays.set cmd.relay_index { relay with is_closed := true } },
            [(relay.id, true)])
    else
      if node.relays.length = 0 then none
      else some (node, [])
  else some (node, [])

/-- The wire-code-to-Priority mapping in handle_activate_relay_by_priority:
0, 1, 2 map to Critical, High, Medium and every other code to Low. -/
def wire_priority (code : Int) : Priority :=
  if code = 0 then Priority.Critical
  else if code = 1 then Priority.High
  else if code = 2 then Priority.Medium
  else Priority.Low

/-- handle_activate_relay_by_priority from node.rs. -/
def handle_activate_relay_by_priority (node : EdgeNode) (cmd : ActivateRelayByPriority) :
    EdgeNode × List Push :=
  if cmd.target_node_id = node.id then
    let a := activate_relays_by_priority node.relays (wire_priority cmd.priority)
    ({ node with relays := a.1 }, a.2)
  else (node, [])

/-- Dispatch of one dequeued command, as in the event loop of node.rs. -/
def handleCommand (node : EdgeNode) : IncomingCommand → Option (EdgeNode × List Push)
  | IncomingCommand.LoadShed c => some (handle_load_shed_command node c)
  | IncomingCommand.EnterIsland c => some (handle_enter_island_command node c)
  | IncomingCommand.EnterBlackStart c => some (handle_enter_blackstart_command node c)
  | IncomingCommand.ActivateRelayByIndex c => handle_activate_relay_by_index node c
  | IncomingCommand.ActivateRelayByPriority c => some (handle_activate_relay_by_priority node c)

/-- One event-loop firing: a sensing tick, a heartbeat (which reads but
never writes node state), or one dequeued command. -/
inductive Op
  | sense (o : SensorOutcome)
  | heartbeat
  | command (c : IncomingCommand)

/-- The node-state effect of one event-loop firing. -/
def step (node : EdgeNode) : Op → Option EdgeNode
  | Op.sense o => some (check_voltage node o).1
  | Op.heartbeat => some node
  | Op.command c => (handleCommand node c).map (fun p => p.1)

/-- A finite sequence of event-loop firings. -/
def run (node : EdgeNode) : List Op → Option EdgeNode
  | [] => some node
  | op :: ops =>
    match step node op with
    | none => none
    | some n1 => run n1 ops

/-- n successive sensing ticks with a fixed sensor outcome, counting how
many voltage alerts were sent. -/
def run_ticks (o : SensorOutcome) : EdgeNode → Nat → EdgeNode × Nat
  | node, 0 => (node, 0)
  | node, n + 1 =>
    let s := check_voltage node o
    let t := run_ticks o s.1 n
    (t.1, (if s.2 = true then 1 else 0) + t.2)

/-- Sample Grid relay (the end-to-end scenario of the design notes). -/
def r_grid : Relay :=
  { id := "grid", name := "Grid Tie", relay_type := RelayType.Grid,
    priority := Priority.Critical, amperage := 100, is_closed := true }

/-- Sample Medium-priority Load relay. -/
def r_hvac : Relay :=
  { id := "hvac", name := "HVAC", relay_type := RelayType.Load,
    priority := Priority.Medium, amperage := 20, is_closed := true }

/-- Sample Low-priority Load relay. -/
def r_out : Relay :=
  { id := "outlets", name := "Outlets", relay_type := RelayType.Load,
    priority := Priority.Low, amperage := 15, is_closed := true }

/-- Sample open Low-priority Load relay. -/
def r_aux : Relay :=
  { id := "aux", name := "Aux", relay_type := RelayType.Load,
    priority := Priority.Low, amperage := 10, is_closed := false }

/-- Sample AdHoc node with the scenario relay inventory. -/
def n0 : EdgeNode :=
  { id := "n1", state := NodeState.Normal, mesh_type := MeshType.AdHoc, battery_soc := 1,
    relays := [r_grid, r_hvac, r_out], voltage_ref := 120, last_voltage := 120 }

/-- The sample node under GovernmentSanctioned mesh. -/
def n0_gov : EdgeNode := { n0 with mesh_type := MeshType.GovernmentSanctioned }

/-- The sample node with an empty relay inventory. -/
def n_empty : EdgeNode := { n0 with relays := [] }

/-- The sample node with one closed Grid relay and one open Load relay. -/
def n_act : EdgeNode := { n0 with relays := [r_grid, r_aux] }

/-- A targeted ActivateRelayByPriority command with an unrecognized wire code. -/
def cmd8 : ActivateRelayByPriority := { target_node_id := "n1", priority := 7 }

/-- The sample node configured with an under-threshold reference voltage. -/
def n6 : EdgeNode := { n0 with voltage_ref := 100 }

/-- The sample node already in Islanded state. -/
def n10 : EdgeNode := { n0 with state := NodeState.Islanded }

/-- Helper: repeated under-voltage ticks in AlertSent stay in AlertSent and
send no further alert. -/
theorem run_ticks_alertsent (o : SensorOutcome) (k : Nat) :
    ∀ node : EdgeNode, node.state = NodeState.AlertSent →
      node.voltage_ref < UNDERVOLTAGE_THRESHOLD →
      (run_ticks o node k).1.state = NodeState.AlertSent ∧ (run_ticks o node k).2 = 0 := by
  induction k with
  | zero => exact fun node hs _ => ⟨hs, rfl⟩
  | succ k ih =>
    intro node hs hv
    have hcv : check_voltage node o = ({ node with last_voltage := node.voltage_ref }, false) := by
      cases o <;> simp [check_voltage, hv, hs]
    have hrec := ih { node with last_voltage := node.voltage_ref } hs hv
    constructor
    · simp only [run_ticks, hcv]
      exact hrec.1
    · simp only [run_ticks, hcv]
      simpa using hrec.2

/-- Helper: check_voltage either keeps the state or moves it to AlertSent. -/
theorem check_voltage_state (node : EdgeNode) (o : SensorOutcome) :
    (check_voltage node o).1.state = node.state ∨
    (check_voltage node o).1.state = NodeState.AlertSent := by
  cases o <;> by_cases hv : node.voltage_ref < UNDERVOLTAGE_THRESHOLD <;>
    cases hst : node.state <;> simp [check_voltage, hv, hst]

/-- Helper: enter_island_mode always leaves the node Islanded. -/
theorem enter_island_mode_state (node : EdgeNode) :
    (enter_island_mode node).1.state = NodeState.Islanded := by
  cases hm : node.mesh_type <;> simp [enter_island_mode, hm]

/-- Helper: a non-crashing event-loop firing only ever assigns the states
AlertSent, Islanded or BlackStart, or keeps the state it found. -/
theorem step_state (node : EdgeNode) (op : Op) (n1 : EdgeNode) (h : step node op = some n1) :
    n1.state = node.state ∨ n1.state = NodeState.AlertSent ∨
    n1.state = NodeState.Islanded ∨ n1.state = NodeState.BlackStart := by
  cases op with
  | sense o =>
    simp only [step, Option.some_inj] at h
    subst h
    rcases check_voltage_state node o with h' | h'
    · exact Or.inl h'
    · exact Or.inr (Or.inl h')
  | heartbeat =>
    simp only [step, Option.some_inj] at h
    subst h
    exact Or.inl rfl
  | command c =>
    cases c with
    | LoadShed cmd =>
      simp only [step, handleCommand, Option.map_some', Option.some_inj] at h
      subst h
      left
      unfold handle_load_shed_command
      split_ifs <;> rfl
    | EnterIsland cmd =>
      simp only [step, handleCommand, Option.map_some', Option.some_inj] at h
      subst h
      unfold handle_enter_island_command
      split_ifs
      · exact Or.inr (Or.inr (Or.inl (enter_island_mode_state node)))
      · exact Or.inl rfl
    | EnterBlackStart cmd =>
      simp only [step, handleCommand, Option.map_some', Option.some_inj] at h
      subst h
      unfold handle_enter_blackstart_command
      split_ifs
      · exact Or.inr (Or.inr (Or.inr rfl))
      · exact Or.inl rfl
    | ActivateRelayByIndex cmd =>
      left
      simp only [step, handleCommand] at h
      unfold handle_activate_relay_by_index at h
      split_ifs at h
      · simp only [Option.map_some', Option.some_inj] at h
        subst h
        rfl
      · simp at h
      · simp only [Option.map_some', Option.some_inj] at h
        subst h
        rfl
      · simp only [Option.map_some', Option.some_inj] at h
        subst h
        rfl
    | ActivateRelayByPriority cmd =>
      simp only [step, handleCommand, Option.map_some', Option.some_inj] at h
      subst h
      left
      unfold handle_activate_relay_by_priority
      split_ifs <;> rfl

/-- C1: for every relay list and starting state, enter_island_mode on an
AdHoc node sets the state to Islanded and leaves every Grid relay and every
Load relay open, regardless of the relays' prior states. -/
theorem C1_enter_island_adhoc (node : EdgeNode) (h : node.mesh_type = MeshType.AdHoc) :
    (enter_island_mode node).1.state = NodeState.Islanded ∧
    ∀ r ∈ (enter_island_mode node).1.relays,
      (r.relay_type = RelayType.Grid → r.is_closed = false) ∧
      (r.relay_type = RelayType.Load → r.is_closed = false) := by
  have hm : ({ node with state := NodeState.Islanded } : EdgeNode).mesh_type =
      MeshType.AdHoc := h
  constructor
  · unfold enter_island_mode
    rw [hm]
  · intro r hr
    unfold enter_island_mode at hr
    rw [hm] at hr
    simp only [shed_all_loads, disconnect_grid, List.mem_map] at hr
    obtain ⟨r1, hr1, hr1e⟩ := hr
    obtain ⟨r0, hr0, hr0e⟩ := hr1
    subst hr1e hr0e
    obtain ⟨id0, name0, ty0, pr0, amp0, cl0⟩ := r0
    cases ty0 <;> cases cl0 <;> simp

/-- Witness for C1 on the sample AdHoc node. -/
theorem C1_enter_island_adhoc_witness :
    n0.mesh_type = MeshType.AdHoc ∧
    ((enter_island_mode n0).1.state = NodeState.Islanded ∧
      ∀ r ∈ (enter_island_mode n0).1.relays,
        (r.relay_type = RelayType.Grid → r.is_closed = false) ∧
        (r.relay_type = RelayType.Load → r.is_closed = false)) :=
  ⟨rfl, C1_enter_island_adhoc n0 rfl⟩

/-- C2: for every relay list and starting state, enter_island_mode on a
GovernmentSanctioned node sets the state to Islanded, keeps every Grid
relay's closed-state exactly as it was, and opens every Load relay. -/
theorem C2_enter_island_gov (node : EdgeNode)
    (h : node.mesh_type = MeshType.GovernmentSanctioned) :
    (enter_island_mode node).1.state = NodeState.Islanded ∧
    (enter_island_mode node).1.relays.length = node.relays.length ∧
    ∀ (i : Nat) (r : Relay), node.relays[i]? = some r →
      ∃ r', (enter_island_mode node).1.relays[i]? = some r' ∧
        (r.relay_type = RelayType.Grid → r'.is_closed = r.is_closed) ∧
        (r.relay_type = RelayType.Load → r'.is_closed = false) := by
  have hm : ({ node with state := NodeState.Islanded } : EdgeNode).mesh_type =
      MeshType.GovernmentSanctioned := h
  refine ⟨?_, ?_, ?_⟩
  · unfold enter_island_mode
    rw [hm]
  · unfold enter_island_mode
    rw [hm]
    simp [shed_all_loads]
  · intro i r hi
    unfold enter_island_mode
    rw [hm]
    simp only [shed_all_loads]
    rw [List.getElem?_map, hi]
    refine ⟨_, rfl, ?_, ?_⟩ <;>
      obtain ⟨id0, name0, ty0, pr0, amp0, cl0⟩ := r <;>
      cases ty0 <;> cases cl0 <;> simp

/-- Witness for C2 on the sample GovernmentSanctioned node. -/
theorem C2_enter_island_gov_witness :
    n0_gov.mesh_type = MeshType.GovernmentSanctioned ∧
    ((enter_island_mode n0_gov).1.state = NodeState.Islanded ∧
      (enter_island_mode n0_gov).1.relays.length = n0_gov.relays.length ∧
      ∀ (i : Nat) (r : Relay), n0_gov.relays[i]? = some r →
        ∃ r', (enter_island_mode n0_gov).1.relays[i]? = some r' ∧
          (r.relay_type = RelayType.Grid → r'.is_closed = r.is_closed) ∧
          (r.relay_type = RelayType.Load → r'.is_closed = false)) :=
  ⟨rfl, C2_enter_island_gov n0_gov rfl⟩

/-- C3: shed_load(t) opens exactly the closed Load relays whose priority is
at or beyond the threshold in the Critical < High < Medium < Low order
(discriminant comparison), leaves every other relay unchanged, and is
idempotent on the relay list. -/
theorem C3_shed_load_spec (relays : List Relay) (t : Priority) :
    (shed_load relays t).1.length = relays.length ∧
    (∀ (i : Nat) (r : Relay), relays[i]? = some r →
      ((r.relay_type = RelayType.Load ∧ Priority.discr t ≤ Priority.discr r.priority ∧
          r.is_closed = true) →
        (shed_load relays t).1[i]? = some { r with is_closed := false }) ∧
      (¬(r.relay_type = RelayType.Load ∧ Priority.discr t ≤ Priority.discr r.priority ∧
          r.is_closed = true) →
        (shed_load relays t).1[i]? = some r)) ∧
    (shed_load (shed_load relays t).1 t).1 = (shed_load relays t).1 := by
  refine ⟨by simp [shed_load], ?_, ?_⟩
  · intro i r hi
    simp only [shed_load]
    rw [List.getElem?_map, hi]
    constructor
    · intro hc
      simp [hc.1, hc.2.1, hc.2.2]
    · intro hc
      by_cases hab : r.relay_type = RelayType.Load ∧
          Priority.discr t ≤ Priority.discr r.priority
      · have hcl : ¬r.is_closed = true := fun hcl => hc ⟨hab.1, hab.2, hcl⟩
        simp [hab, hcl]
      · simp [hab]
  · simp only [shed_load]
    rw [List.map_map]
    apply List.map_congr_left
    intro a _
    by_cases hab : a.relay_type = RelayType.Load ∧
        Priority.discr t ≤ Priority.discr a.priority
    · by_cases hcl : a.is_closed = true
      · simp [Function.comp, hab, hcl]
      · simp [Function.comp, hab, hcl]
    · simp [Function.comp, hab]

/-- Witness for C3: shedding at threshold Low opens the closed Low load. -/
theorem C3_shed_load_spec_witness :
    [r_grid, r_hvac, r_out][2]? = some r_out ∧
    (r_out.relay_type = RelayType.Load ∧
      Priority.discr Priority.Low ≤ Priority.discr r_out.priority ∧ r_out.is_closed = true) ∧
    (shed_load [r_grid, r_hvac, r_out] Priority.Low).1[2]? =
      some { r_out with is_closed := false } :=
  ⟨rfl, by decide,
    ((C3_shed_load_spec [r_grid, r_hvac, r_out] Priority.Low).2.1 2 r_out rfl).1 (by decide)⟩

/-- C4: evaluating the handler at the failing input.  On a node whose relay
inventory is empty, a targeted ActivateRelayByIndex command reaches the
out-of-range warning, whose format argument computes the usize subtraction
relays.len() - 1 on length 0; that underflow is an arithmetic overflow
(a Rust program error, trapping under overflow checks), modelled as none,
so the handler is not the crash-free no-op the claim states. -/
theorem C4_activate_by_index_empty_underflow :
    handle_activate_relay_by_index n_empty { target_node_id := "n1", relay_index := 0 } =
      none := rfl

/-- C5: the state transition and alert decision of check_voltage are
independent of the power sensor's outcome, because every branch compares
the configured voltage_ref against the threshold; a node with
voltage_ref at or above 110 V keeps its state and sends no alert. -/
theorem C5_check_voltage_sensor_independent (node : EdgeNode) (o1 o2 : SensorOutcome) :
    check_voltage node o1 = check_voltage node o2 ∧
    (UNDERVOLTAGE_THRESHOLD ≤ node.voltage_ref →
      (check_voltage node o1).1.state = node.state ∧ (check_voltage node o1).2 = false) := by
  constructor
  · cases o1 <;> cases o2 <;> rfl
  · intro hv
    have hlt : ¬node.voltage_ref < UNDERVOLTAGE_THRESHOLD := not_lt.mpr hv
    cases o1 <;> simp [check_voltage, hlt]

/-- Witness for C5 on the sample node (voltage_ref = 120). -/
theorem C5_check_voltage_sensor_independent_witness :
    UNDERVOLTAGE_THRESHOLD ≤ n0.voltage_ref ∧
    check_voltage n0 (SensorOutcome.ok 500) = check_voltage n0 SensorOutcome.err ∧
    (check_voltage n0 (SensorOutcome.ok 500)).1.state = n0.state ∧
    (check_voltage n0 (SensorOutcome.ok 500)).2 = false :=
  ⟨by decide, (C5_check_voltage_sensor_independent n0 (SensorOutcome.ok 500) SensorOutcome.err).1,
    ((C5_check_voltage_sensor_independent n0 (SensorOutcome.ok 500) SensorOutcome.err).2
      (by decide)).1,
    ((C5_check_voltage_sensor_independent n0 (SensorOutcome.ok 500) SensorOutcome.err).2
      (by decide)).2⟩

/-- C6: starting from Normal under a sustained under-voltage reading, any
positive number of sensing ticks leaves the node in AlertSent and sends
exactly one voltage alert: the first low tick alerts and transitions, and
every later low tick in AlertSent sends nothing and stays in AlertSent. -/
theorem C6_alert_sent_exactly_once (node : EdgeNode) (o : SensorOutcome) (n : Nat)
    (hv : node.voltage_ref < UNDERVOLTAGE_THRESHOLD) (hs : node.state = NodeState.Normal)
    (hn : 1 ≤ n) :
    (run_ticks o node n).1.state = NodeState.AlertSent ∧ (run_ticks o node n).2 = 1 := by
  obtain ⟨k, rfl⟩ : ∃ k, n = k + 1 := ⟨n - 1, by omega⟩
  have hcv : check_voltage node o =
      ({ node with last_voltage := node.voltage_ref, state := NodeState.AlertSent }, true) := by
    cases o <;> simp [check_voltage, hv, hs]
  have hrec := run_ticks_alertsent o k
    { node with last_voltage := node.voltage_ref, state := NodeState.AlertSent } rfl hv
  constructor
  · simp only [run_ticks, hcv]
    exact hrec.1
  · simp only [run_ticks, hcv]
    simp [hrec.2]

/-- Witness for C6: three low ticks on the 100 V node alert exactly once. -/
theorem C6_alert_sent_exactly_once_witness :
    n6.voltage_ref < UNDERVOLTAGE_THRESHOLD ∧ n6.state = NodeState.Normal ∧ 1 ≤ 3 ∧
    ((run_ticks SensorOutcome.noSensor n6 3).1.state = NodeState.AlertSent ∧
      (run_ticks SensorOutcome.noSensor n6 3).2 = 1) :=
  ⟨by decide, rfl, by decide,
    C6_alert_sent_exactly_once n6 SensorOutcome.noSensor 3 (by decide) rfl (by decide)⟩

/-- C7: a command of any of the five variants whose target_node_id is not
this node's id changes nothing: the node is returned unchanged and no
hardware push is emitted. -/
theorem C7_wrong_target_noop (node : EdgeNode) (c : IncomingCommand)
    (h : IncomingCommand.target c ≠ node.id) :
    handleCommand node c = some (node, []) := by
  cases c <;>
    simp only [handleCommand, handle_load_shed_command, handle_enter_island_command,
      handle_enter_blackstart_command, handle_activate_relay_by_index,
      handle_activate_relay_by_priority, IncomingCommand.target] at h ⊢ <;>
    rw [if_neg h]

/-- Witness for C7: a LoadShed addressed to node n2 is dropped by node n1. -/
theorem C7_wrong_target_noop_witness :
    IncomingCommand.target
      (IncomingCommand.LoadShed { target_node_id := "n2", shed_load := true }) ≠ n0.id ∧
    handleCommand n0 (IncomingCommand.LoadShed { target_node_id := "n2", shed_load := true }) =
      some (n0, []) :=
  ⟨by decide,
    C7_wrong_target_noop n0
      (IncomingCommand.LoadShed { target_node_id := "n2", shed_load := true }) (by decide)⟩

/-- C8: a targeted ActivateRelayByPriority command maps the wire code
(0 to Critical, 1 to High, 2 to Medium, anything else to Low) and closes
exactly the open relays of that priority, leaving every other relay and
every already-closed relay unchanged. -/
theorem C8_activate_by_priority_spec (node : EdgeNode) (cmd : ActivateRelayByPriority)
    (ht : cmd.target_node_id = node.id) :
    wire_priority 0 = Priority.Critical ∧ wire_priority 1 = Priority.High ∧
    wire_priority 2 = Priority.Medium ∧
    (∀ c : Int, c ≠ 0 → c ≠ 1 → c ≠ 2 → wire_priority c = Priority.Low) ∧
    (handle_activate_relay_by_priority node cmd).1.relays.length = node.relays.length ∧
    ∀ (i : Nat) (r : Relay), node.relays[i]? = some r →
      ((r.priority = wire_priority cmd.priority ∧ r.is_closed = false) →
        (handle_activate_relay_by_priority node cmd).1.relays[i]? =
          some { r with is_closed := true }) ∧
      (¬(r.priority = wire_priority cmd.priority ∧ r.is_closed = false) →
        (handle_activate_relay_by_priority node cmd).1.relays[i]? = some r) := by
  refine ⟨rfl, rfl, rfl, ?_, ?_, ?_⟩
  · intro c h0 h1 h2
    simp [wire_priority, h0, h1, h2]
  · simp [handle_activate_relay_by_priority, ht, activate_relays_by_priority]
  · intro i r hi
    simp only [handle_activate_relay_by_priority, ht, if_true, eq_self_iff_true,
      activate_relays_by_priority]
    constructor
    · intro hc
      rw [List.getElem?_map, hi]
      simp [hc.1, hc.2]
    · intro hc
      rw [List.getElem?_map, hi]
      simp [hc]

/-- Witness for C8: wire code 7 maps to Low and closes the open Low load. -/
theorem C8_activate_by_priority_spec_witness :
    cmd8.target_node_id = n_act.id ∧
    n_act.relays[1]? = some r_aux ∧
    (r_aux.priority = wire_priority cmd8.priority ∧ r_aux.is_closed = false) ∧
    (handle_activate_relay_by_priority n_act cmd8).1.relays[1]? =
      some { r_aux with is_closed := true } :=
  ⟨rfl, rfl, by decide,
    ((C8_activate_by_priority_spec n_act cmd8 rfl).2.2.2.2.2 1 r_aux rfl).1 (by decide)⟩

/-- C9: from every starting state, enter_blackstart_mode sets the state to
BlackStart, mutates no relay and pushes nothing to hardware. -/
theorem C9_blackstart_frame (node : EdgeNode) :
    (enter_blackstart_mode node).1.state = NodeState.BlackStart ∧
    (enter_blackstart_mode node).1.relays = node.relays ∧
    (enter_blackstart_mode node).2 = [] :=
  ⟨rfl, rfl, rfl⟩

/-- C10: across every finite sequence of event-loop firings (sensing ticks,
heartbeats and commands), a node whose state is not Normal never returns to
Normal: no operation of the core assigns Normal after construction. -/
theorem C10_no_return_to_normal (node : EdgeNode) (ops : List Op) (n1 : EdgeNode)
    (h : node.state ≠ NodeState.Normal) (hr : run node ops = some n1) :
    n1.state ≠ NodeState.Normal := by
  induction ops generalizing node with
  | nil =>
    simp only [run, Option.some_inj] at hr
    subst hr
    exact h
  | cons op ops ih =>
    simp only [run] at hr
    cases hstep : step node op with
    | none =>
      rw [hstep] at hr
      exact Option.noConfusion hr
    | some n2 =>
      rw [hstep] at hr
      have h2 : n2.state ≠ NodeState.Normal := by
        rcases step_state node op n2 hstep with h' | h' | h' | h'
        · rw [h']
          exact h
        · simp [h']
        · simp [h']
        · simp [h']
      exact ih n2 h2 hr

/-- Witness for C10: an Islanded node stays non-Normal across a heartbeat
and a healthy sensing tick. -/
theorem C10_no_return_to_normal_witness :
    n10.state ≠ NodeState.Normal ∧
    run n10 [Op.heartbeat, Op.sense SensorOutcome.err] = some n10 ∧
    n10.state ≠ NodeState.Normal :=
  ⟨by decide, rfl,
    C10_no_return_to_normal n10 [Op.heartbeat, Op.sense SensorOutcome.err] n10 (by decide) rfl⟩

end StreetGrid
